import Mathlib

/-!
Verification of the events query compiler and result mapper of the
`manager_rest` REST service (`manager_rest/rest/resources_v1/events.py`).

The `Events` resource compiles a legacy search payload (filters, sort,
pagination, range filters) into two relational query plans — a row-selection
plan and a count plan — over the event and log tables joined through
executions and deployments, and reshapes the resulting rows into the legacy
search-engine envelope.

The embedding below models:
  * SQL queries as functions from a database (lists of table rows) to row
    lists; `Query.filter` becomes `List.filter`, SQL `UNION` becomes
    concatenation followed by `List.dedup` (SQL `UNION` removes duplicate
    rows), `ORDER BY` becomes a stable merge sort by the accumulated keys,
    and `LIMIT`/`OFFSET` become `List.take`/`List.drop`;
  * Python `datetime` values as a record of calendar/clock fields, with
    `isoformat` reproduced exactly (no fractional part when the microsecond
    field is zero, a six-digit fraction otherwise);
  * Python dicts (the mapped legacy records) as association lists with
    insertion-order semantics: assigning to a fresh key appends, assigning
    to an existing key updates in place, `del` removes.
-/

namespace ManagerRest

/-- Model of `datetime.datetime` restricted to the fields that
`datetime.isoformat` renders. -/
structure DateTime where
  year : Nat
  month : Nat
  day : Nat
  hour : Nat
  minute : Nat
  second : Nat
  microsecond : Nat
deriving DecidableEq, Repr

/-- Decimal rendering of `n` left-padded with zeros to `width` digits,
as Python's `%0Nd` formatting does. -/
def padNum (width n : Nat) : String :=
  let s := toString n
  String.mk (List.replicate (width - s.length) '0') ++ s

/-- Python's `datetime.isoformat()`: `YYYY-MM-DDTHH:MM:SS` when the
microsecond field is zero, and `YYYY-MM-DDTHH:MM:SS.ffffff` (six fractional
digits) otherwise. -/
def DateTime.isoformat (d : DateTime) : String :=
  padNum 4 d.year ++ "-" ++ padNum 2 d.month ++ "-" ++ padNum 2 d.day ++ "T" ++
    padNum 2 d.hour ++ ":" ++ padNum 2 d.minute ++ ":" ++ padNum 2 d.second ++
    (if d.microsecond == 0 then "" else "." ++ padNum 6 d.microsecond)

/-- List of the seven date/time fields, most significant first; comparing
these lists lexicographically compares the instants chronologically. -/
def DateTime.fieldsList (d : DateTime) : List Nat :=
  [d.year, d.month, d.day, d.hour, d.minute, d.second, d.microsecond]

/-- Lexicographic less-or-equal on lists of naturals (the lexicographic
order on `List Nat`); comparing two `fieldsList`s with it compares the two
instants chronologically. -/
def lexLeNat (as bs : List Nat) : Bool :=
  decide (as ≤ bs)

/-- Lexicographic (codepoint) less-or-equal on character lists; model of the
text collation used by the SQL backend when ordering string columns. -/
def charListLe (as bs : List Char) : Bool :=
  decide (as ≤ bs)

/-- Value stored in one column of a result row: SQL `NULL`, a text value, or
a timestamp. -/
inductive Value where
  | null
  | str (s : String)
  | dt (d : DateTime)
deriving DecidableEq, Repr

/-- SQL comparison used by `WHERE` predicates (range filters): comparisons
with `NULL` or between incompatible types are not satisfied. -/
def Value.sqlLe : Value → Value → Bool
  | .str a, .str b => charListLe a.toList b.toList
  | .dt a, .dt b => lexLeNat a.fieldsList b.fieldsList
  | _, _ => false

/-- Constructor rank used to give `ORDER BY` a deterministic total order
across types, with `NULL` largest (PostgreSQL sorts nulls last on
ascending order). -/
def Value.rank : Value → Nat
  | .str _ => 0
  | .dt _ => 1
  | .null => 2

/-- Total comparison used by `ORDER BY`: values of the same type compare by
their contents, otherwise by constructor rank. -/
def Value.cmpLe : Value → Value → Bool
  | .str a, .str b => charListLe a.toList b.toList
  | .dt a, .dt b => lexLeNat a.fieldsList b.fieldsList
  | a, b => decide (a.rank ≤ b.rank)

/-- Modelled from the spec: the `Event` model of
`manager_rest.storage.resource_models` (the module itself is not part of the
sources; §3 of the design lists its fields): timestamp, message,
message_code, event_type, operation, node_id and a foreign key to the owning
`Execution`. -/
structure Event where
  timestamp : DateTime
  message : String
  message_code : Value
  event_type : Value
  operation : Value
  node_id : Value
  execution_fk : Nat
deriving DecidableEq, Repr

/-- Modelled from the spec: the `Log` model of
`manager_rest.storage.resource_models`: timestamp, message, operation,
node_id, logger, level and a foreign key to the owning `Execution`. -/
structure Log where
  timestamp : DateTime
  message : String
  operation : Value
  node_id : Value
  logger : Value
  level : Value
  execution_fk : Nat
deriving DecidableEq, Repr

/-- Modelled from the spec: the `Execution` model — an identifier, a storage
key and a foreign key to the owning `Deployment`. -/
structure Execution where
  id : String
  storage_id : Nat
  deployment_fk : Nat
deriving DecidableEq, Repr

/-- Modelled from the spec: the `Deployment` model — an identifier and a
storage key. -/
structure Deployment where
  id : String
  storage_id : Nat
deriving DecidableEq, Repr

/-- The relational store: the four tables the events endpoint reads. -/
structure DB where
  events : List Event
  logs : List Log
  executions : List Execution
  deployments : List Deployment
deriving Repr

/-- Column membership test backing the `hasattr(model, field)` check of
`_apply_range_filters` for the `Event` model (fields as in the spec's data
model). -/
def Event.hasField (f : String) : Bool :=
  f ∈ ["timestamp", "message", "message_code", "event_type", "operation", "node_id"]

/-- Column access backing `getattr(model, field)` for the `Event` model. -/
def Event.getField (e : Event) : String → Value
  | "timestamp" => .dt e.timestamp
  | "message" => .str e.message
  | "message_code" => e.message_code
  | "event_type" => e.event_type
  | "operation" => e.operation
  | "node_id" => e.node_id
  | _ => .null

/-- Column membership test backing `hasattr(model, field)` for the `Log`
model. -/
def Log.hasField (f : String) : Bool :=
  f ∈ ["timestamp", "message", "operation", "node_id", "logger", "level"]

/-- Column access backing `getattr(model, field)` for the `Log` model. -/
def Log.getField (l : Log) : String → Value
  | "timestamp" => .dt l.timestamp
  | "message" => .str l.message
  | "operation" => l.operation
  | "node_id" => l.node_id
  | "logger" => l.logger
  | "level" => l.level
  | _ => .null

/-- The `filters` request argument. The builders receive it as
`Option Filters`: `none` models a value that is not a dict at all (the
`not isinstance(filters, dict)` check). Each field is `none` when the
corresponding key is absent from the dict. -/
structure Filters where
  type : Option (List String)
  execution_id : Option (List String)
  deployment_id : Option (List String)
deriving DecidableEq, Repr

/-- The `pagination` request argument (`size` and `offset`).
`_build_select_query` receives it but does not read it: the SQL `LIMIT` and
`OFFSET` are bound parameters supplied at execution time. -/
structure Pagination where
  size : Nat
  offset : Nat
deriving DecidableEq, Repr

/-- One range filter: the optional `from` and `to` keys of the
`range_filters` request argument. -/
structure RangeBound where
  fromVal : Option Value
  toVal : Option Value
deriving DecidableEq, Repr

/-- Python's `field.lstrip('@')`: remove every leading `@` character. -/
def lstripAt (s : String) : String :=
  String.mk (s.toList.dropWhile (fun c => c = '@'))

/-- A relational query is modelled by its denotation: the list of rows it
returns on a given database. -/
def Query (α : Type) : Type := DB → List α

/-- The joined row source of both the events and the logs query: the
source row together with its owning `Execution` and `Deployment` (the
`WHERE` clause equates the foreign keys with the storage ids). -/
def joinSource (rows : DB → List α) (fk : α → Nat) : Query (α × Execution × Deployment) :=
  fun db =>
    (rows db).flatMap fun r =>
      db.executions.flatMap fun ex =>
        db.deployments.filterMap fun dep =>
          if fk r = ex.storage_id ∧ ex.deployment_fk = dep.storage_id then
            some (r, ex, dep)
          else
            none

/-- The events side of the join (`Event._execution_fk == Execution._storage_id`,
`Execution._deployment_fk == Deployment._storage_id`). -/
def eventJoin : Query (Event × Execution × Deployment) :=
  joinSource (fun db => db.events) Event.execution_fk

/-- The logs side of the join. -/
def logJoin : Query (Log × Execution × Deployment) :=
  joinSource (fun db => db.logs) Log.execution_fk

/-- An `IN`-predicate for one entry of `ALLOWED_FILTERS`: when the filter
key is absent no constraint is added, otherwise the entity id must be among
the given values. -/
def inFilter (ids : Option (List String)) (idv : String) : Bool :=
  match ids with
  | none => true
  | some l => idv ∈ l

/-- `Events._apply_filters`: for each of `(Execution, 'execution_id')` and
`(Deployment, 'deployment_id')`, if the key is present in the filter set,
constrain the query with `model.id.in_(filters[field])`; the constraints
are conjunctive. -/
def apply_filters (filters : Filters) (query : Query (α × Execution × Deployment)) :
    Query (α × Execution × Deployment) :=
  fun db =>
    (query db).filter fun r =>
      inFilter filters.execution_id r.2.1.id && inFilter filters.deployment_id r.2.2.id

/-- `Events._apply_range_filter`: add `getattr(model, field) >= from` and
`getattr(model, field) <= to` constraints for the bounds present. -/
def apply_range_filter (getF : α → String → Value) (field : String)
    (range_filter : RangeBound) (query : Query α) : Query α :=
  let query : Query α :=
    match range_filter.fromVal with
    | none => query
    | some v => fun db => (query db).filter fun r => Value.sqlLe v (getF r field)
  match range_filter.toVal with
  | none => query
  | some v => fun db => (query db).filter fun r => Value.sqlLe (getF r field) v

/-- `Events._apply_range_filters`: for each entry, strip the legacy `@`
prefix, reject the field with `BadParametersError` if the model has no such
attribute, and otherwise add the bound constraints. Errors are modelled as
`Except.error` carrying the exception message. -/
def apply_range_filters (hasF : String → Bool) (getF : α → String → Value)
    (range_filters : List (String × RangeBound)) (query : Query α) :
    Except String (Query α) :=
  match range_filters with
  | [] => .ok query
  | (field, range_filter) :: rest =>
    let f := lstripAt field
    if hasF f then
      apply_range_filters hasF getF rest (apply_range_filter getF f range_filter query)
    else
      .error ("Unknown field to filter by range: " ++ f)

/-- The common projected column set of the events and logs queries, in
projection order; this is also what `query.column_descriptions` yields for
the (possibly unioned) selection query. -/
def column_names : List String :=
  ["timestamp", "deployment_id", "message", "message_code", "event_type",
   "operation", "node_id", "logger", "level", "type"]

/-- One row of the unified projection. -/
structure Row where
  timestamp : Value
  deployment_id : Value
  message : Value
  message_code : Value
  event_type : Value
  operation : Value
  node_id : Value
  logger : Value
  level : Value
  type : Value
deriving DecidableEq, Repr

/-- Column access on a projected row (`getattr(sql_event, attr)`). -/
def Row.get (r : Row) : String → Value
  | "timestamp" => r.timestamp
  | "deployment_id" => r.deployment_id
  | "message" => r.message
  | "message_code" => r.message_code
  | "event_type" => r.event_type
  | "operation" => r.operation
  | "node_id" => r.node_id
  | "logger" => r.logger
  | "level" => r.level
  | "type" => r.type
  | _ => .null

/-- The events-side projection of `_build_select_query`: `logger` and
`level` are `NULL` placeholders and the type tag is `'cloudify_event'`. -/
def eventProjection (e : Event) (dep : Deployment) : Row where
  timestamp := .dt e.timestamp
  deployment_id := .str dep.id
  message := .str e.message
  message_code := e.message_code
  event_type := e.event_type
  operation := e.operation
  node_id := e.node_id
  logger := .null
  level := .null
  type := .str "cloudify_event"

/-- The logs-side projection of `_build_select_query`: `message_code` and
`event_type` are `NULL` placeholders and the type tag is `'cloudify_log'`. -/
def logProjection (l : Log) (dep : Deployment) : Row where
  timestamp := .dt l.timestamp
  deployment_id := .str dep.id
  message := .str l.message
  message_code := .null
  event_type := .null
  operation := l.operation
  node_id := l.node_id
  logger := l.logger
  level := l.level
  type := .str "cloudify_log"

/-- `Events._apply_sort`: for each sort entry strip the legacy `@` prefix,
reject the field with `BadParametersError` if it is not among the projected
column names, and otherwise append an `ORDER BY` key; `asc` maps to an
ascending key and any other direction string to a descending key
(`order_func = asc if order == 'asc' else desc`). The returned list is the
accumulated `ORDER BY` clause, in the given order. -/
def apply_sort (sort : List (String × String)) : Except String (List (String × Bool)) :=
  match sort with
  | [] => .ok []
  | (field, order) :: rest =>
    let f := lstripAt field
    if f ∈ column_names then
      match apply_sort rest with
      | .ok keys => .ok ((f, order == "asc") :: keys)
      | .error e => .error e
    else
      .error ("Unknown field to sort by: " ++ f)

/-- Comparison of two rows under an accumulated `ORDER BY` key list:
lexicographic by the keys, each key ascending or descending. -/
def rowLe (keys : List (String × Bool)) (a b : Row) : Bool :=
  match keys with
  | [] => true
  | (f, isAsc) :: rest =>
    if a.get f = b.get f then rowLe rest a b
    else if isAsc then Value.cmpLe (a.get f) (b.get f)
    else Value.cmpLe (b.get f) (a.get f)

/-- Execution of the accumulated `ORDER BY` clause: a stable sort by the
lexicographic row comparison. -/
def sortRows (keys : List (String × Bool)) (rows : List Row) : List Row :=
  rows.mergeSort (rowLe keys)

/-- `Events._build_select_query`: validate the type filter, build the
events projection over the join, apply filters and range filters, union the
analogously-built logs projection when the log type is also requested
(SQL `UNION` removes duplicate rows, hence `List.dedup`), apply sorting and
finally `LIMIT`/`OFFSET` as bound parameters (the `pagination` argument is
received but not read; the window is supplied at execution time). The
result, on success, is the query denotation: database, bound `limit` and
bound `offset` to the selected row list. -/
def build_select_query (filters : Option Filters) (_pagination : Pagination)
    (sort : List (String × String)) (range_filters : List (String × RangeBound)) :
    Except String (DB → Nat → Nat → List Row) := do
  match filters with
  | none => throw "Filter by type is expected"
  | some fs =>
    match fs.type with
    | none => throw "Filter by type is expected"
    | some types =>
      if "cloudify_event" ∈ types then do
        let query := apply_filters fs eventJoin
        let query ←
          apply_range_filters Event.hasField (fun r => Event.getField r.1) range_filters query
        let rows : Query Row := fun db => (query db).map fun r => eventProjection r.1 r.2.2
        let rows ←
          if "cloudify_log" ∈ types then do
            let logs_query := apply_filters fs logJoin
            let logs_query ←
              apply_range_filters Log.hasField (fun r => Log.getField r.1) range_filters
                logs_query
            pure (fun db =>
              (rows db ++ (logs_query db).map fun r => logProjection r.1 r.2.2).dedup)
          else
            pure rows
        let keys ← apply_sort sort
        pure (fun db limit offset => ((sortRows keys (rows db)).drop offset).take limit)
      else
        throw "At least `type=cloudify_event` filter is expected"

/-- `Events._build_count_query`: validate the type filter, count the
filtered events join, and when the log type is also requested add the count
of the filtered logs join (the SQL query adds the two subquery counts). -/
def build_count_query (filters : Option Filters)
    (range_filters : List (String × RangeBound)) : Except String (DB → Nat) := do
  match filters with
  | none => throw "Filter by type is expected"
  | some fs =>
    match fs.type with
    | none => throw "Filter by type is expected"
    | some types =>
      if "cloudify_event" ∈ types then do
        let events_query := apply_filters fs eventJoin
        let events_query ←
          apply_range_filters Event.hasField (fun r => Event.getField r.1) range_filters
            events_query
        if "cloudify_log" ∈ types then do
          let logs_query := apply_filters fs logJoin
          let logs_query ←
            apply_range_filters Log.hasField (fun r => Log.getField r.1) range_filters
              logs_query
          pure (fun db => (events_query db).length + (logs_query db).length)
        else
          pure (fun db => (events_query db).length)
      else
        throw "At least `type=cloudify_event` filter is expected"

/-- Compile-then-execute of the selection query, as `_query_events` does:
`select_query.params(limit=..., offset=...).all()`. `none` means compilation
raised `BadParametersError` and the store was never queried. -/
def run_select (filters : Option Filters) (pagination : Pagination)
    (sort : List (String × String)) (range_filters : List (String × RangeBound))
    (db : DB) (limit offset : Nat) : Option (List Row) :=
  match build_select_query filters pagination sort range_filters with
  | .ok sel => some (sel db limit offset)
  | .error _ => none

/-- Compile-then-execute of the count query, as `_query_events` does:
`count_query.params(limit=..., offset=...).scalar()`. The same bound
parameters are supplied as for the selection query, but the count query
references neither. -/
def run_count (filters : Option Filters) (range_filters : List (String × RangeBound))
    (db : DB) (_limit _offset : Nat) : Option Nat :=
  match build_count_query filters range_filters with
  | .ok cnt => some (cnt db)
  | .error _ => none

/-- Value of one field of a mapped legacy record: the restructured records
additionally contain nested objects (the wrapped message and the context). -/
inductive EsValue where
  | null
  | str (s : String)
  | dt (d : DateTime)
  | obj (fields : List (String × EsValue))
deriving Repr

/-- Injection of row values into record values. -/
def Value.toEs : Value → EsValue
  | .null => .null
  | .str s => .str s
  | .dt d => .dt d

/-- Python's `==` between a record value and a string literal. -/
def EsValue.isStr (v : EsValue) (s : String) : Bool :=
  match v with
  | .str t => t == s
  | _ => false

/-- Lookup in a record dict (used only on keys known to be present). -/
def dictGet (d : List (String × EsValue)) (k : String) : EsValue :=
  match d.lookup k with
  | some v => v
  | none => .null

/-- Python dict assignment: update the value in place when the key exists,
append a new entry otherwise. -/
def dictSet (d : List (String × EsValue)) (k : String) (v : EsValue) :
    List (String × EsValue) :=
  if d.any fun p => p.1 == k then
    d.map fun p => if p.1 == k then (k, v) else p
  else
    d ++ [(k, v)]

/-- Python `del`: remove the entry with the given key. -/
def dictDel (d : List (String × EsValue)) (k : String) : List (String × EsValue) :=
  d.filter fun p => p.1 != k

/-- The dict comprehension of `_map_event_to_es`:
`{attr: getattr(sql_event, attr) for attr in sql_event.keys()}`. -/
def Row.toDict (r : Row) : List (String × EsValue) :=
  column_names.map fun k => (k, (r.get k).toEs)

/-- `event['message']['arguments'] = None`: add a null `arguments` entry
inside the wrapped message object. -/
def addNullArguments : EsValue → EsValue
  | .obj fields => .obj (dictSet fields "arguments" .null)
  | v => v

/-- `'{}Z'.format(value.isoformat()[:-3])` applied to `datetime` values,
as the final loop of `_map_event_to_es` does to every top-level field. -/
def renderValue : EsValue → EsValue
  | .dt d => .str (d.isoformat.dropRight 3 ++ "Z")
  | v => v

/-- The fields regrouped under `context` by `_map_event_to_es`. -/
def context_fields : List String :=
  ["deployment_id", "operation", "node_id"]

/-- `Events._map_event_to_es`: copy the row into a dict, duplicate the
timestamp under `@timestamp`, wrap the message as `{text: ...}`, regroup
the context fields into a nested `context` object and delete them from the
top level, apply the type-specific shaping, render every top-level
`datetime` value, and finally keep only the keys listed in `_include` when
it is not `None`. -/
def map_event_to_es (_include : Option (List String)) (sql_event : Row) :
    List (String × EsValue) :=
  let event := sql_event.toDict
  let event := dictSet event "@timestamp" (dictGet event "timestamp")
  let event := dictSet event "message" (.obj [("text", dictGet event "message")])
  let event := dictSet event "context"
    (.obj (context_fields.map fun f => (f, dictGet event f)))
  let event := context_fields.foldl dictDel event
  let event :=
    if (dictGet event "type").isStr "cloudify_event" then
      let event := dictSet event "message" (addNullArguments (dictGet event "message"))
      let event := dictDel event "logger"
      dictDel event "level"
    else if (dictGet event "type").isStr "cloudify_log" then
      dictDel event "event_type"
    else
      event
  let event := event.map fun p => (p.1, renderValue p.2)
  match _include with
  | some incl => event.filter fun p => decide (p.1 ∈ incl)
  | none => event

/-! ## Order-theoretic lemmas about the sort comparator -/

lemma lexLeNat_total (as bs : List Nat) : lexLeNat as bs = true ∨ lexLeNat bs as = true := by
  simp only [lexLeNat, decide_eq_true_eq]
  exact le_total as bs

lemma lexLeNat_trans {as bs cs : List Nat} (h1 : lexLeNat as bs = true)
    (h2 : lexLeNat bs cs = true) : lexLeNat as cs = true := by
  simp only [lexLeNat, decide_eq_true_eq] at h1 h2 ⊢
  exact le_trans h1 h2

lemma lexLeNat_antisymm {as bs : List Nat} (h1 : lexLeNat as bs = true)
    (h2 : lexLeNat bs as = true) : as = bs := by
  simp only [lexLeNat, decide_eq_true_eq] at h1 h2
  exact le_antisymm h1 h2

lemma charListLe_total (as bs : List Char) : charListLe as bs = true ∨ charListLe bs as = true := by
  simp only [charListLe, decide_eq_true_eq]
  exact le_total as bs

lemma charListLe_trans {as bs cs : List Char} (h1 : charListLe as bs = true)
    (h2 : charListLe bs cs = true) : charListLe as cs = true := by
  simp only [charListLe, decide_eq_true_eq] at h1 h2 ⊢
  exact le_trans h1 h2

lemma charListLe_antisymm {as bs : List Char} (h1 : charListLe as bs = true)
    (h2 : charListLe bs as = true) : as = bs := by
  simp only [charListLe, decide_eq_true_eq] at h1 h2
  exact le_antisymm h1 h2

lemma DateTime.fieldsList_inj {d1 d2 : DateTime} (h : d1.fieldsList = d2.fieldsList) :
    d1 = d2 := by
  cases d1
  cases d2
  simp only [DateTime.fieldsList, List.cons.injEq, and_true] at h
  simp_all

lemma Value.cmpLe_total (a b : Value) : Value.cmpLe a b = true ∨ Value.cmpLe b a = true := by
  cases a <;> cases b <;>
    simp only [Value.cmpLe, Value.rank, decide_eq_true_eq] <;>
    first
      | exact charListLe_total _ _
      | exact lexLeNat_total _ _
      | omega

lemma Value.cmpLe_trans {a b c : Value} (h1 : Value.cmpLe a b = true)
    (h2 : Value.cmpLe b c = true) : Value.cmpLe a c = true := by
  cases a <;> cases b <;> cases c <;>
    simp_all only [Value.cmpLe, Value.rank, decide_eq_true_eq] <;>
    first
      | rfl
      | omega
      | exact charListLe_trans h1 h2
      | exact lexLeNat_trans h1 h2

lemma Value.cmpLe_antisymm {a b : Value} (h1 : Value.cmpLe a b = true)
    (h2 : Value.cmpLe b a = true) : a = b := by
  cases a <;> cases b <;>
    simp_all only [Value.cmpLe, Value.rank, decide_eq_true_eq] <;>
    first
      | rfl
      | omega
      | exact congrArg Value.str (String.ext (charListLe_antisymm h1 h2))
      | exact congrArg Value.dt (DateTime.fieldsList_inj (lexLeNat_antisymm h1 h2))

lemma rowLe_nil (a b : Row) : rowLe [] a b = true := rfl

lemma rowLe_cons (f : String) (isAsc : Bool) (keys : List (String × Bool)) (a b : Row) :
    rowLe ((f, isAsc) :: keys) a b =
      if a.get f = b.get f then rowLe keys a b
      else if isAsc then Value.cmpLe (a.get f) (b.get f)
      else Value.cmpLe (b.get f) (a.get f) := rfl

lemma rowLe_total (keys : List (String × Bool)) (a b : Row) :
    rowLe keys a b = true ∨ rowLe keys b a = true := by
  induction keys with
  | nil => exact Or.inl rfl
  | cons k keys ih =>
    obtain ⟨f, isAsc⟩ := k
    rw [rowLe_cons, rowLe_cons]
    by_cases h : a.get f = b.get f
    · rw [if_pos h, if_pos h.symm]
      exact ih
    · rw [if_neg h, if_neg (Ne.symm h)]
      cases isAsc
      · simp only [Bool.false_eq_true, if_false]
        exact Value.cmpLe_total (b.get f) (a.get f)
      · simp only [if_true]
        exact Value.cmpLe_total (a.get f) (b.get f)

lemma rowLe_trans (keys : List (String × Bool)) (a b c : Row)
    (h1 : rowLe keys a b = true) (h2 : rowLe keys b c = true) : rowLe keys a c = true := by
  induction keys with
  | nil => rfl
  | cons k keys ih =>
    obtain ⟨f, isAsc⟩ := k
    rw [rowLe_cons] at h1 h2 ⊢
    by_cases hab : a.get f = b.get f <;> by_cases hbc : b.get f = c.get f
    · rw [if_pos hab] at h1
      rw [if_pos hbc] at h2
      rw [if_pos (hab.trans hbc)]
      exact ih h1 h2
    · rw [if_pos hab] at h1
      rw [if_neg hbc] at h2
      rw [if_neg (show a.get f ≠ c.get f from fun hh => hbc (hab.symm.trans hh)), hab]
      exact h2
    · rw [if_neg hab] at h1
      rw [if_pos hbc] at h2
      rw [if_neg (fun h => hab (h.trans hbc.symm)), ← hbc]
      exact h1
    · rw [if_neg hab] at h1
      rw [if_neg hbc] at h2
      have hac : a.get f ≠ c.get f := by
        intro h
        cases isAsc <;> simp only [Bool.false_eq_true, if_false, if_true] at h1 h2
        · exact hbc (Value.cmpLe_antisymm h2 (h ▸ h1)).symm
        · exact hab (Value.cmpLe_antisymm h1 (h.symm ▸ h2))
      rw [if_neg hac]
      cases isAsc <;> simp only [Bool.false_eq_true, if_false, if_true] at h1 h2 ⊢
      · exact Value.cmpLe_trans h2 h1
      · exact Value.cmpLe_trans h1 h2

/-! ## Characterizations of sorting, filtering and the join -/

lemma sortRows_perm (keys : List (String × Bool)) (rows : List Row) :
    (sortRows keys rows).Perm rows :=
  List.mergeSort_perm rows (rowLe keys)

lemma sortRows_sorted (keys : List (String × Bool)) (rows : List Row) :
    (sortRows keys rows).Pairwise fun a b => rowLe keys a b = true :=
  List.sorted_mergeSort (fun a b c => rowLe_trans keys a b c)
    (fun a b => by
      rcases rowLe_total keys a b with h | h <;> simp [h])
    rows

lemma pairwise_rowLe_nil (rows : List Row) :
    rows.Pairwise fun a b => rowLe [] a b = true := by
  induction rows with
  | nil => exact List.Pairwise.nil
  | cons a rows ih => exact List.Pairwise.cons (fun b _ => rfl) ih

lemma sortRows_nil_keys (rows : List Row) : sortRows [] rows = rows :=
  List.mergeSort_of_sorted (pairwise_rowLe_nil rows)

/-- Conjunction of the `from`/`to` bounds of one range filter at one row:
`from ≤ field` when a `from` bound is present and `field ≤ to` when a `to`
bound is present (closed interval). -/
def boundPred (getF : α → String → Value) (f : String) (rf : RangeBound) (r : α) : Bool :=
  (match rf.fromVal with
   | none => true
   | some v => Value.sqlLe v (getF r f)) &&
  (match rf.toVal with
   | none => true
   | some v => Value.sqlLe (getF r f) v)

lemma boundPred_eval (getF : α → String → Value) (f : String) (fv tv : Option Value)
    (r : α) :
    boundPred getF f ⟨fv, tv⟩ r =
      ((match fv with
        | none => true
        | some v => Value.sqlLe v (getF r f)) &&
       (match tv with
        | none => true
        | some v => Value.sqlLe (getF r f) v)) := rfl

lemma apply_range_filter_eq (getF : α → String → Value) (f : String) (rf : RangeBound)
    (q : Query α) (db : DB) :
    apply_range_filter getF f rf q db = (q db).filter (boundPred getF f rf) := by
  obtain ⟨fv, tv⟩ := rf
  cases fv with
  | none =>
    cases tv with
    | none =>
      rw [show boundPred getF f ⟨none, none⟩ = fun _ => true from funext fun r => rfl]
      simp [apply_range_filter]
    | some tvv =>
      rw [show boundPred getF f ⟨none, some tvv⟩ = fun r => Value.sqlLe (getF r f) tvv from
        funext fun r => rfl]
      simp [apply_range_filter]
  | some fvv =>
    cases tv with
    | none =>
      rw [show boundPred getF f ⟨some fvv, none⟩ =
          fun r => Value.sqlLe fvv (getF r f) && true from funext fun r => rfl]
      simp [apply_range_filter]
    | some tvv =>
      rw [show boundPred getF f ⟨some fvv, some tvv⟩ =
          fun r => Value.sqlLe fvv (getF r f) && Value.sqlLe (getF r f) tvv from
        funext fun r => rfl]
      simp [apply_range_filter, List.filter_filter, Bool.and_comm]

lemma apply_range_filters_ok (hasF : String → Bool) (getF : α → String → Value) :
    ∀ (rfs : List (String × RangeBound)) (q : Query α),
      (∀ p ∈ rfs, hasF (lstripAt p.1) = true) →
      ∃ q', apply_range_filters hasF getF rfs q = .ok q' ∧
        ∀ db, q' db = (q db).filter fun r =>
          rfs.all fun p => boundPred getF (lstripAt p.1) p.2 r
  | [], q, _ => by
    refine ⟨q, rfl, fun db => ?_⟩
    simp
  | (field, rf) :: rest, q, h => by
    have hf : hasF (lstripAt field) = true := h (field, rf) (List.mem_cons_self _ _)
    obtain ⟨q', hq', hrun⟩ :=
      apply_range_filters_ok hasF getF rest (apply_range_filter getF (lstripAt field) rf q)
        (fun p hp => h p (List.mem_cons_of_mem _ hp))
    refine ⟨q', ?_, fun db => ?_⟩
    · simpa [apply_range_filters, hf] using hq'
    · rw [hrun db, apply_range_filter_eq]
      simp [List.filter_filter, Bool.and_comm, Bool.and_assoc, Bool.and_left_comm]

lemma apply_range_filters_error (hasF : String → Bool) (getF : α → String → Value) :
    ∀ (rfs : List (String × RangeBound)) (q : Query α) (p : String × RangeBound),
      p ∈ rfs → hasF (lstripAt p.1) = false →
      ∃ f, hasF f = false ∧
        apply_range_filters hasF getF rfs q =
          .error ("Unknown field to filter by range: " ++ f)
  | [], _, p, hp, _ => absurd hp (List.not_mem_nil p)
  | (field, rf) :: rest, q, p, hp, hbad => by
    by_cases hf : hasF (lstripAt field) = true
    · have hrest : p ∈ rest := by
        rcases List.mem_cons.mp hp with h | h
        · subst h
          rw [show lstripAt (field, rf).1 = lstripAt field from rfl, hf] at hbad
          exact Bool.noConfusion hbad
        · exact h
      obtain ⟨f, hfbad, heq⟩ :=
        apply_range_filters_error hasF getF rest
          (apply_range_filter getF (lstripAt field) rf q) p hrest hbad
      exact ⟨f, hfbad, by simpa [apply_range_filters, hf] using heq⟩
    · exact ⟨lstripAt field, Bool.eq_false_iff.mpr hf,
        by simp [apply_range_filters, Bool.eq_false_iff.mpr hf]⟩

lemma apply_filters_eq (fs : Filters) (q : Query (α × Execution × Deployment)) (db : DB) :
    apply_filters fs q db =
      (q db).filter fun r =>
        inFilter fs.execution_id r.2.1.id && inFilter fs.deployment_id r.2.2.id := rfl

lemma mem_joinSource {rows : DB → List α} {fk : α → Nat} {db : DB}
    {t : α × Execution × Deployment} :
    t ∈ joinSource rows fk db ↔
      t.1 ∈ rows db ∧ t.2.1 ∈ db.executions ∧ t.2.2 ∈ db.deployments ∧
        fk t.1 = t.2.1.storage_id ∧ t.2.1.deployment_fk = t.2.2.storage_id := by
  obtain ⟨e, ex, dep⟩ := t
  simp only [joinSource, List.mem_flatMap, List.mem_filterMap,
    Option.ite_none_right_eq_some, Option.some.injEq, Prod.mk.injEq]
  constructor
  · rintro ⟨e', he', ex', hex', dep', hdep', ⟨hfk, hdfk⟩, he, hex2, hdep2⟩
    subst he
    subst hex2
    subst hdep2
    exact ⟨he', hex', hdep', hfk, hdfk⟩
  · rintro ⟨he, hex, hdep, hfk, hdfk⟩
    exact ⟨e, he, ex, hex, dep, hdep, ⟨hfk, hdfk⟩, rfl, rfl, rfl⟩

/-! ## Reductions of the two query builders -/

lemma build_select_query_both {fs : Filters} {types : List String}
    (h1 : fs.type = some types)
    (hev : "cloudify_event" ∈ types) (hlog : "cloudify_log" ∈ types)
    {rfs : List (String × RangeBound)} {evQ : Query (Event × Execution × Deployment)}
    {logQ : Query (Log × Execution × Deployment)}
    (h2 : apply_range_filters Event.hasField (fun r => Event.getField r.1) rfs
      (apply_filters fs eventJoin) = .ok evQ)
    (h3 : apply_range_filters Log.hasField (fun r => Log.getField r.1) rfs
      (apply_filters fs logJoin) = .ok logQ)
    {sort : List (String × String)} {keys : List (String × Bool)}
    (h4 : apply_sort sort = .ok keys) (p : Pagination) :
    build_select_query (some fs) p sort rfs = .ok (fun db limit offset =>
      ((sortRows keys ((((evQ db).map fun r => eventProjection r.1 r.2.2) ++
        ((logQ db).map fun r => logProjection r.1 r.2.2)).dedup)).drop offset).take limit) := by
  simp [build_select_query, h1, hev, hlog, h2, h3, h4, Bind.bind, Except.bind,
    pure, Except.pure]

lemma build_select_query_event_only {fs : Filters} {types : List String}
    (h1 : fs.type = some types)
    (hev : "cloudify_event" ∈ types) (hlog : "cloudify_log" ∉ types)
    {rfs : List (String × RangeBound)} {evQ : Query (Event × Execution × Deployment)}
    (h2 : apply_range_filters Event.hasField (fun r => Event.getField r.1) rfs
      (apply_filters fs eventJoin) = .ok evQ)
    {sort : List (String × String)} {keys : List (String × Bool)}
    (h4 : apply_sort sort = .ok keys) (p : Pagination) :
    build_select_query (some fs) p sort rfs = .ok (fun db limit offset =>
      ((sortRows keys ((evQ db).map fun r => eventProjection r.1 r.2.2)).drop offset).take
        limit) := by
  simp [build_select_query, h1, hev, hlog, h2, h4, Bind.bind, Except.bind,
    pure, Except.pure]

lemma build_count_query_both {fs : Filters} {types : List String}
    (h1 : fs.type = some types)
    (hev : "cloudify_event" ∈ types) (hlog : "cloudify_log" ∈ types)
    {rfs : List (String × RangeBound)} {evQ : Query (Event × Execution × Deployment)}
    {logQ : Query (Log × Execution × Deployment)}
    (h2 : apply_range_filters Event.hasField (fun r => Event.getField r.1) rfs
      (apply_filters fs eventJoin) = .ok evQ)
    (h3 : apply_range_filters Log.hasField (fun r => Log.getField r.1) rfs
      (apply_filters fs logJoin) = .ok logQ) :
    build_count_query (some fs) rfs =
      .ok (fun db => (evQ db).length + (logQ db).length) := by
  simp [build_count_query, h1, hev, hlog, h2, h3, Bind.bind, Except.bind,
    pure, Except.pure]

/-! ## Characterization of sort compilation -/

lemma apply_sort_ok : ∀ (sort : List (String × String)),
    (∀ p ∈ sort, lstripAt p.1 ∈ column_names) →
    apply_sort sort = .ok (sort.map fun p => (lstripAt p.1, p.2 == "asc"))
  | [], _ => rfl
  | (field, order) :: rest, h => by
    have hf : lstripAt field ∈ column_names := h (field, order) (List.mem_cons_self _ _)
    have ih := apply_sort_ok rest fun p hp => h p (List.mem_cons_of_mem _ hp)
    simp [apply_sort, hf, ih]

lemma apply_sort_error_at : ∀ (sort1 : List (String × String)) (f o : String)
    (sort2 : List (String × String)),
    (∀ p ∈ sort1, lstripAt p.1 ∈ column_names) → lstripAt f ∉ column_names →
    apply_sort (sort1 ++ (f, o) :: sort2) =
      .error ("Unknown field to sort by: " ++ lstripAt f)
  | [], f, o, sort2, _, hbad => by simp [apply_sort, hbad]
  | (g, go) :: rest, f, o, sort2, hgood, hbad => by
    have hg : lstripAt g ∈ column_names := hgood (g, go) (List.mem_cons_self _ _)
    have ih := apply_sort_error_at rest f o sort2
      (fun p hp => hgood p (List.mem_cons_of_mem _ hp)) hbad
    simp [apply_sort, hg, ih]

lemma build_count_query_event_only {fs : Filters} {types : List String}
    (h1 : fs.type = some types)
    (hev : "cloudify_event" ∈ types) (hlog : "cloudify_log" ∉ types)
    {rfs : List (String × RangeBound)} {evQ : Query (Event × Execution × Deployment)}
    (h2 : apply_range_filters Event.hasField (fun r => Event.getField r.1) rfs
      (apply_filters fs eventJoin) = .ok evQ) :
    build_count_query (some fs) rfs = .ok (fun db => (evQ db).length) := by
  simp [build_count_query, h1, hev, hlog, h2, Bind.bind, Except.bind,
    pure, Except.pure]

/-- Every successfully compiled selection query windows its (sorted) row
list with the bound `offset` and `limit` parameters. -/
lemma build_select_query_ok_shape {filters : Option Filters} {pagination : Pagination}
    {sort : List (String × String)} {range_filters : List (String × RangeBound)}
    {sel : DB → Nat → Nat → List Row}
    (h : build_select_query filters pagination sort range_filters = .ok sel) :
    ∃ (keys : List (String × Bool)) (rowsFn : Query Row),
      sel = fun db limit offset =>
        ((sortRows keys (rowsFn db)).drop offset).take limit := by
  match filters with
  | none => simp [build_select_query] at h
  | some fs =>
    match hty : fs.type with
    | none => simp [build_select_query, hty] at h
    | some types =>
      by_cases hev : "cloudify_event" ∈ types
      · cases hr1 : apply_range_filters Event.hasField (fun r => Event.getField r.1)
          range_filters (apply_filters fs eventJoin) with
        | error e =>
          simp [build_select_query, hty, hev, hr1, Bind.bind, Except.bind] at h
        | ok evQ =>
          by_cases hlog : "cloudify_log" ∈ types
          · cases hr2 : apply_range_filters Log.hasField (fun r => Log.getField r.1)
              range_filters (apply_filters fs logJoin) with
            | error e =>
              simp [build_select_query, hty, hev, hlog, hr1, hr2,
                Bind.bind, Except.bind] at h
            | ok logQ =>
              cases hs : apply_sort sort with
              | error e =>
                simp [build_select_query, hty, hev, hlog, hr1, hr2, hs,
                  Bind.bind, Except.bind, pure, Except.pure] at h
              | ok keys =>
                refine ⟨keys, fun db =>
                  (((evQ db).map fun r => eventProjection r.1 r.2.2) ++
                    ((logQ db).map fun r => logProjection r.1 r.2.2)).dedup, ?_⟩
                rw [build_select_query_both hty hev hlog hr1 hr2 hs pagination] at h
                exact (Except.ok.inj h).symm
          · cases hs : apply_sort sort with
            | error e =>
              simp [build_select_query, hty, hev, hlog, hr1, hs,
                Bind.bind, Except.bind, pure, Except.pure] at h
            | ok keys =>
              refine ⟨keys, fun db =>
                (evQ db).map fun r => eventProjection r.1 r.2.2, ?_⟩
              rw [build_select_query_event_only hty hev hlog hr1 hs pagination] at h
              exact (Except.ok.inj h).symm
      · simp [build_select_query, hty, hev] at h

/-! ## Key structure of the mapped legacy records -/

lemma map_fst_filter_key (d : List (String × EsValue)) (pr : String → Bool) :
    (d.filter fun p => pr p.1).map Prod.fst = (d.map Prod.fst).filter pr := by
  induction d with
  | nil => rfl
  | cons p d ih =>
    by_cases h : pr p.1 = true <;> simp [List.filter_cons, h, ih]

set_option maxHeartbeats 8000000

/-- Definitional shape of an unprojected mapped record: the pre-rendering
dict is one of three explicit association lists, selected by the row's type
tag, and the rendering pass maps over it. -/
lemma map_event_to_es_none_shape (ts dpl m mc et op nd lg lv ty : Value) :
    map_event_to_es none ⟨ts, dpl, m, mc, et, op, nd, lg, lv, ty⟩ =
      ((if ty.toEs.isStr "cloudify_event" then
          [("timestamp", ts.toEs),
            ("message", .obj [("text", m.toEs), ("arguments", .null)]),
            ("message_code", mc.toEs), ("event_type", et.toEs), ("type", ty.toEs),
            ("@timestamp", ts.toEs),
            ("context", .obj [("deployment_id", dpl.toEs), ("operation", op.toEs),
              ("node_id", nd.toEs)])]
        else if ty.toEs.isStr "cloudify_log" then
          [("timestamp", ts.toEs), ("message", .obj [("text", m.toEs)]),
            ("message_code", mc.toEs), ("logger", lg.toEs), ("level", lv.toEs),
            ("type", ty.toEs), ("@timestamp", ts.toEs),
            ("context", .obj [("deployment_id", dpl.toEs), ("operation", op.toEs),
              ("node_id", nd.toEs)])]
        else
          [("timestamp", ts.toEs), ("message", .obj [("text", m.toEs)]),
            ("message_code", mc.toEs), ("event_type", et.toEs), ("logger", lg.toEs),
            ("level", lv.toEs), ("type", ty.toEs), ("@timestamp", ts.toEs),
            ("context", .obj [("deployment_id", dpl.toEs), ("operation", op.toEs),
              ("node_id", nd.toEs)])]).map fun p => (p.1, renderValue p.2)) := rfl

/-- Top-level key list of an unprojected mapped record: one of three concrete
key lists, depending on the row's type tag. -/
lemma map_event_to_es_none_keys (r : Row) :
    (map_event_to_es none r).map Prod.fst =
        ["timestamp", "message", "message_code", "event_type", "type",
          "@timestamp", "context"] ∨
      (map_event_to_es none r).map Prod.fst =
        ["timestamp", "message", "message_code", "logger", "level", "type",
          "@timestamp", "context"] ∨
      (map_event_to_es none r).map Prod.fst =
        ["timestamp", "message", "message_code", "event_type", "logger", "level",
          "type", "@timestamp", "context"] := by
  obtain ⟨ts, dpl, m, mc, et, op, nd, lg, lv, ty⟩ := r
  rw [map_event_to_es_none_shape]
  cases ty with
  | null => right; right; rfl
  | dt d => right; right; rfl
  | str s =>
    by_cases h1 : s = "cloudify_event"
    · subst h1; left; rfl
    · by_cases h2 : s = "cloudify_log"
      · subst h2; right; left; rfl
      · right; right
        have hb1 : (s == "cloudify_event") = false := beq_eq_false_iff_ne.mpr h1
        have hb2 : (s == "cloudify_log") = false := beq_eq_false_iff_ne.mpr h2
        simp only [Value.toEs, EsValue.isStr, hb1, hb2, Bool.false_eq_true,
          if_false]
        rfl

set_option maxHeartbeats 200000

/-- Mapped record of an event-tagged row (no field projection). -/
lemma map_event_to_es_event_row (ts dpl m mc et op nd lg lv : Value) :
    map_event_to_es none ⟨ts, dpl, m, mc, et, op, nd, lg, lv,
        .str "cloudify_event"⟩ =
      [("timestamp", renderValue ts.toEs),
        ("message", .obj [("text", m.toEs), ("arguments", .null)]),
        ("message_code", renderValue mc.toEs),
        ("event_type", renderValue et.toEs),
        ("type", .str "cloudify_event"),
        ("@timestamp", renderValue ts.toEs),
        ("context", .obj [("deployment_id", dpl.toEs), ("operation", op.toEs),
          ("node_id", nd.toEs)])] := by
  rw [map_event_to_es_none_shape]
  rfl

/-- Mapped record of a log-tagged row (no field projection). -/
lemma map_event_to_es_log_row (ts dpl m mc et op nd lg lv : Value) :
    map_event_to_es none ⟨ts, dpl, m, mc, et, op, nd, lg, lv,
        .str "cloudify_log"⟩ =
      [("timestamp", renderValue ts.toEs),
        ("message", .obj [("text", m.toEs)]),
        ("message_code", renderValue mc.toEs),
        ("logger", renderValue lg.toEs),
        ("level", renderValue lv.toEs),
        ("type", .str "cloudify_log"),
        ("@timestamp", renderValue ts.toEs),
        ("context", .obj [("deployment_id", dpl.toEs), ("operation", op.toEs),
          ("node_id", nd.toEs)])] := by
  rw [map_event_to_es_none_shape]
  rfl

/-! ## Concrete sample data used by witnesses and counterexamples -/

def dtMicro : DateTime := ⟨2024, 1, 2, 3, 4, 5, 123456⟩

def dtWhole : DateTime := ⟨2024, 1, 2, 3, 4, 5, 0⟩

def sample_event : Event :=
  ⟨dtMicro, "hello", .null, .str "task_started", .str "op1", .str "node1", 1⟩

def sample_log : Log :=
  ⟨dtWhole, "log message", .str "op1", .str "node1", .str "worker", .str "INFO", 1⟩

def sample_execution : Execution := ⟨"exec-1", 1, 7⟩

def sample_deployment : Deployment := ⟨"dep-1", 7⟩

def db_dup : DB :=
  ⟨[sample_event, sample_event], [sample_log], [sample_execution], [sample_deployment]⟩

def filters_both : Filters := ⟨some ["cloudify_event", "cloudify_log"], none, none⟩

/-! ## Claims -/

/-- C2: a `filters` argument that is not a mapping, or lacks a `type` key,
or whose `type` list does not contain `cloudify_event`, makes both
`_build_select_query` and `_build_count_query` raise `BadParametersError`
during query compilation; compiling then executing (`run_select`,
`run_count`) yields no result, so the store is never queried on a
validation failure. -/
theorem claim_C2 (pagination : Pagination) (sort : List (String × String))
    (range_filters : List (String × RangeBound)) (db : DB) (limit offset : Nat) :
    (build_select_query none pagination sort range_filters =
        .error "Filter by type is expected" ∧
      build_count_query none range_filters = .error "Filter by type is expected" ∧
      run_select none pagination sort range_filters db limit offset = none ∧
      run_count none range_filters db limit offset = none) ∧
    (∀ fs : Filters, fs.type = none →
      build_select_query (some fs) pagination sort range_filters =
          .error "Filter by type is expected" ∧
        build_count_query (some fs) range_filters =
          .error "Filter by type is expected" ∧
        run_select (some fs) pagination sort range_filters db limit offset = none ∧
        run_count (some fs) range_filters db limit offset = none) ∧
    (∀ (fs : Filters) (types : List String), fs.type = some types →
      "cloudify_event" ∉ types →
      build_select_query (some fs) pagination sort range_filters =
          .error "At least `type=cloudify_event` filter is expected" ∧
        build_count_query (some fs) range_filters =
          .error "At least `type=cloudify_event` filter is expected" ∧
        run_select (some fs) pagination sort range_filters db limit offset = none ∧
        run_count (some fs) range_filters db limit offset = none) := by
  refine ⟨⟨rfl, rfl, rfl, rfl⟩, fun fs hty => ?_, fun fs types hty hev => ?_⟩
  · have h1 : build_select_query (some fs) pagination sort range_filters =
        .error "Filter by type is expected" := by
      simp [build_select_query, hty, throw, throwThe, MonadExceptOf.throw]
    have h2 : build_count_query (some fs) range_filters =
        .error "Filter by type is expected" := by
      simp [build_count_query, hty, throw, throwThe, MonadExceptOf.throw]
    exact ⟨h1, h2, by simp [run_select, h1], by simp [run_count, h2]⟩
  · have h1 : build_select_query (some fs) pagination sort range_filters =
        .error "At least `type=cloudify_event` filter is expected" := by
      simp [build_select_query, hty, hev, throw, throwThe, MonadExceptOf.throw]
    have h2 : build_count_query (some fs) range_filters =
        .error "At least `type=cloudify_event` filter is expected" := by
      simp [build_count_query, hty, hev, throw, throwThe, MonadExceptOf.throw]
    exact ⟨h1, h2, by simp [run_select, h1], by simp [run_count, h2]⟩

theorem claim_C2_witness :
    build_select_query (some ⟨some ["cloudify_log"], none, none⟩) ⟨10, 0⟩ [] [] =
        .error "At least `type=cloudify_event` filter is expected" ∧
      run_count (some ⟨none, none, none⟩) [] ⟨[], [], [], []⟩ 10 0 = none := by
  refine ⟨?_, ?_⟩
  · exact ((claim_C2 ⟨10, 0⟩ [] [] ⟨[], [], [], []⟩ 10 0).2.2
      ⟨some ["cloudify_log"], none, none⟩ ["cloudify_log"] rfl (by decide)).1
  · exact (((claim_C2 ⟨10, 0⟩ [] [] ⟨[], [], [], []⟩ 10 0).2.1
      ⟨none, none, none⟩ rfl).2.2.2)

/-- C5: each sort field is normalized by stripping the legacy `@` prefix; a
normalized name outside the projected column set raises
`BadParametersError` with message `Unknown field to sort by: <field>` (the
first offending entry determines the message), while a fully valid sort
spec compiles to `ORDER BY` keys in the given order, and executing them
yields a permutation of the rows that is pairwise ordered by the
lexicographic multi-key comparison; an `@`-prefixed name whose stripped
form is a projected column (such as `@timestamp`) is accepted. -/
theorem claim_C5 (sort : List (String × String)) :
    (∀ (sort1 : List (String × String)) (f o : String)
        (sort2 : List (String × String)),
      sort = sort1 ++ (f, o) :: sort2 →
      (∀ p ∈ sort1, lstripAt p.1 ∈ column_names) →
      lstripAt f ∉ column_names →
      apply_sort sort = .error ("Unknown field to sort by: " ++ lstripAt f)) ∧
    ((∀ p ∈ sort, lstripAt p.1 ∈ column_names) →
      apply_sort sort = .ok (sort.map fun p => (lstripAt p.1, p.2 == "asc")) ∧
      ∀ rows : List Row,
        (sortRows (sort.map fun p => (lstripAt p.1, p.2 == "asc")) rows).Perm rows ∧
        (sortRows (sort.map fun p => (lstripAt p.1, p.2 == "asc")) rows).Pairwise
          fun a b =>
            rowLe (sort.map fun p => (lstripAt p.1, p.2 == "asc")) a b = true) := by
  refine ⟨fun sort1 f o sort2 heq hgood hbad => ?_,
    fun hgood => ⟨apply_sort_ok sort hgood,
      fun rows => ⟨sortRows_perm _ _, sortRows_sorted _ _⟩⟩⟩
  subst heq
  exact apply_sort_error_at sort1 f o sort2 hgood hbad

theorem claim_C5_witness :
    apply_sort [("@timestamp", "asc"), ("bogus", "desc")] =
        .error "Unknown field to sort by: bogus" ∧
      apply_sort [("@timestamp", "asc")] = .ok [("timestamp", true)] := by
  refine ⟨?_, ?_⟩
  · exact (claim_C5 [("@timestamp", "asc"), ("bogus", "desc")]).1
      [("@timestamp", "asc")] "bogus" "desc" [] rfl (by decide) (by decide)
  · exact ((claim_C5 [("@timestamp", "asc")]).2 (by decide)).1

/-- C10: for a sort entry whose field passes validation, every direction
string other than exactly `asc` compiles to a descending `ORDER BY` key
(`false`), with no error raised for the unrecognized direction, and a
descending key compares rows by the reversed value comparison. -/
theorem claim_C10 (field order : String) (h1 : lstripAt field ∈ column_names)
    (h2 : order ≠ "asc") :
    apply_sort [(field, order)] = .ok [(lstripAt field, false)] ∧
    ∀ (keys : List (String × Bool)) (a b : Row),
      rowLe ((lstripAt field, false) :: keys) a b =
        if a.get (lstripAt field) = b.get (lstripAt field) then rowLe keys a b
        else Value.cmpLe (b.get (lstripAt field)) (a.get (lstripAt field)) := by
  constructor
  · have hb : (order == "asc") = false := beq_eq_false_iff_ne.mpr h2
    have h := apply_sort_ok [(field, order)] (by simpa using h1)
    rw [h]
    simp [hb]
  · intro keys a b
    rw [rowLe_cons]
    simp

theorem claim_C10_witness :
    apply_sort [("@timestamp", "DESC")] = .ok [("timestamp", false)] ∧
      apply_sort [("timestamp", "")] = .ok [("timestamp", false)] := by
  refine ⟨?_, ?_⟩
  · exact (claim_C10 "@timestamp" "DESC" (by decide) (by decide)).1
  · exact (claim_C10 "timestamp" "" (by decide) (by decide)).1

/-- C6: range filters over a model (Event or Log): a field whose
`@`-stripped name is not an attribute of the model raises
`BadParametersError`; when every field is recognized, a present `from`
bound keeps exactly the rows with `from ≤ field`, a present `to` bound
keeps exactly the rows with `field ≤ to` (closed interval), and the bounds
of all fields conjoin. -/
theorem claim_C6 :
    (∀ (rfs : List (String × RangeBound)) (q : Query Event) (db : DB),
      ((∀ p ∈ rfs, Event.hasField (lstripAt p.1) = true) →
        ∃ q', apply_range_filters Event.hasField Event.getField rfs q = .ok q' ∧
          q' db = (q db).filter fun e =>
            rfs.all fun p =>
              (match p.2.fromVal with
               | none => true
               | some v => Value.sqlLe v (Event.getField e (lstripAt p.1))) &&
              (match p.2.toVal with
               | none => true
               | some v => Value.sqlLe (Event.getField e (lstripAt p.1)) v)) ∧
      (∀ p, p ∈ rfs → Event.hasField (lstripAt p.1) = false →
        ∃ f, Event.hasField f = false ∧
          apply_range_filters Event.hasField Event.getField rfs q =
            .error ("Unknown field to filter by range: " ++ f))) ∧
    (∀ (rfs : List (String × RangeBound)) (q : Query Log) (db : DB),
      ((∀ p ∈ rfs, Log.hasField (lstripAt p.1) = true) →
        ∃ q', apply_range_filters Log.hasField Log.getField rfs q = .ok q' ∧
          q' db = (q db).filter fun l =>
            rfs.all fun p =>
              (match p.2.fromVal with
               | none => true
               | some v => Value.sqlLe v (Log.getField l (lstripAt p.1))) &&
              (match p.2.toVal with
               | none => true
               | some v => Value.sqlLe (Log.getField l (lstripAt p.1)) v)) ∧
      (∀ p, p ∈ rfs → Log.hasField (lstripAt p.1) = false →
        ∃ f, Log.hasField f = false ∧
          apply_range_filters Log.hasField Log.getField rfs q =
            .error ("Unknown field to filter by range: " ++ f))) := by
  refine ⟨fun rfs q db => ⟨fun hgood => ?_, fun p hp hbad => ?_⟩,
    fun rfs q db => ⟨fun hgood => ?_, fun p hp hbad => ?_⟩⟩
  · obtain ⟨q', hok, hrun⟩ := apply_range_filters_ok Event.hasField Event.getField rfs q hgood
    exact ⟨q', hok, hrun db⟩
  · exact apply_range_filters_error Event.hasField Event.getField rfs q p hp hbad
  · obtain ⟨q', hok, hrun⟩ := apply_range_filters_ok Log.hasField Log.getField rfs q hgood
    exact ⟨q', hok, hrun db⟩
  · exact apply_range_filters_error Log.hasField Log.getField rfs q p hp hbad

theorem claim_C6_witness :
    (match apply_range_filters Event.hasField Event.getField
        [("@timestamp", ⟨some (.dt ⟨2024, 1, 2, 3, 4, 5, 0⟩), none⟩)]
        (fun db => db.events) with
      | .ok q' => q' db_dup
      | .error _ => []) = [sample_event, sample_event] ∧
    (apply_range_filters Event.hasField Event.getField
        [("logger", ⟨none, none⟩)] (fun db => db.events)).isOk = false := by
  constructor
  · obtain ⟨q', hok, hrun⟩ :=
      ((claim_C6.1 [("@timestamp", ⟨some (.dt ⟨2024, 1, 2, 3, 4, 5, 0⟩), none⟩)]
        (fun db => db.events) db_dup).1 (by decide))
    rw [hok]
    show q' db_dup = [sample_event, sample_event]
    rw [hrun]
    decide
  · obtain ⟨f, hf, herr⟩ :=
      ((claim_C6.1 [("logger", ⟨none, none⟩)] (fun db => db.events) db_dup).2
        ("logger", ⟨none, none⟩) (by decide) (by decide))
    rw [herr]
    rfl

/-- C7: present `execution_id` and `deployment_id` filters each constrain
the joined query with an `IN`-predicate over the owning entity's id, and
the predicates conjoin on top of the Event/Log → Execution → Deployment
join; consequently filtering by an execution id and a deployment id that do
not belong to each other selects zero rows and counts zero. -/
theorem claim_C7 :
    (∀ (fs : Filters) (q : Query (Event × Execution × Deployment)) (db : DB),
      apply_filters fs q db = (q db).filter fun r =>
        (match fs.execution_id with
         | none => true
         | some ids => decide (r.2.1.id ∈ ids)) &&
        (match fs.deployment_id with
         | none => true
         | some ids => decide (r.2.2.id ∈ ids))) ∧
    (∀ (fs : Filters) (types : List String) (x y : String) (db : DB)
        (p : Pagination) (limit offset : Nat),
      fs.type = some types → "cloudify_event" ∈ types → "cloudify_log" ∈ types →
      fs.execution_id = some [x] → fs.deployment_id = some [y] →
      (∀ ex ∈ db.executions, ∀ dep ∈ db.deployments,
        ex.id = x → dep.id = y → ex.deployment_fk ≠ dep.storage_id) →
      run_select (some fs) p [] [] db limit offset = some [] ∧
      run_count (some fs) [] db limit offset = some 0) := by
  refine ⟨fun fs q db => rfl, fun fs types x y db p limit offset hty hev hlog hx hy hdis => ?_⟩
  have hev_empty : apply_filters fs eventJoin db = [] := by
    rw [apply_filters_eq]
    refine List.filter_eq_nil_iff.mpr fun t ht hp => ?_
    obtain ⟨hmem1, hmem2, hmem3, hfk, hdfk⟩ := mem_joinSource.mp ht
    rw [Bool.and_eq_true] at hp
    obtain ⟨hp1, hp2⟩ := hp
    rw [hx] at hp1
    rw [hy] at hp2
    simp only [inFilter, List.mem_singleton, decide_eq_true_eq] at hp1 hp2
    exact hdis t.2.1 hmem2 t.2.2 hmem3 hp1 hp2 hdfk
  have hlog_empty : apply_filters fs logJoin db = [] := by
    rw [apply_filters_eq]
    refine List.filter_eq_nil_iff.mpr fun t ht hp => ?_
    obtain ⟨hmem1, hmem2, hmem3, hfk, hdfk⟩ := mem_joinSource.mp ht
    rw [Bool.and_eq_true] at hp
    obtain ⟨hp1, hp2⟩ := hp
    rw [hx] at hp1
    rw [hy] at hp2
    simp only [inFilter, List.mem_singleton, decide_eq_true_eq] at hp1 hp2
    exact hdis t.2.1 hmem2 t.2.2 hmem3 hp1 hp2 hdfk
  have hsel := build_select_query_both hty hev hlog
    (rfl : apply_range_filters Event.hasField (fun r => Event.getField r.1) []
      (apply_filters fs eventJoin) = .ok (apply_filters fs eventJoin))
    (rfl : apply_range_filters Log.hasField (fun r => Log.getField r.1) []
      (apply_filters fs logJoin) = .ok (apply_filters fs logJoin))
    (rfl : apply_sort [] = .ok []) p
  have hcnt := build_count_query_both hty hev hlog
    (rfl : apply_range_filters Event.hasField (fun r => Event.getField r.1) []
      (apply_filters fs eventJoin) = .ok (apply_filters fs eventJoin))
    (rfl : apply_range_filters Log.hasField (fun r => Log.getField r.1) []
      (apply_filters fs logJoin) = .ok (apply_filters fs logJoin))
  constructor
  · simp [run_select, hsel, hev_empty, hlog_empty, sortRows_nil_keys]
  · simp [run_count, hcnt, hev_empty, hlog_empty]

theorem claim_C7_witness :
    run_select (some ⟨some ["cloudify_event", "cloudify_log"], some ["exec-1"],
        some ["no-such-dep"]⟩) ⟨100, 0⟩ [] [] db_dup 100 0 = some [] ∧
      run_count (some ⟨some ["cloudify_event", "cloudify_log"], some ["exec-1"],
        some ["no-such-dep"]⟩) [] db_dup 100 0 = some 0 :=
  claim_C7.2 ⟨some ["cloudify_event", "cloudify_log"], some ["exec-1"],
      some ["no-such-dep"]⟩
    ["cloudify_event", "cloudify_log"] "exec-1" "no-such-dep" db_dup ⟨100, 0⟩ 100 0
    rfl (by decide) (by decide) rfl rfl (by decide)

/-- Concrete evaluation of the selection pipeline on the duplicate-event
sample database (both types requested, no sort, no range filters). -/
lemma run_select_db_dup (limit offset : Nat) :
    run_select (some filters_both) ⟨limit, offset⟩ [] [] db_dup limit offset =
      some (([eventProjection sample_event sample_deployment,
        logProjection sample_log sample_deployment].drop offset).take limit) := by
  have hsel := build_select_query_both
    (rfl : filters_both.type = some ["cloudify_event", "cloudify_log"])
    (by decide) (by decide)
    (rfl : apply_range_filters Event.hasField (fun r => Event.getField r.1) []
      (apply_filters filters_both eventJoin) =
        .ok (apply_filters filters_both eventJoin))
    (rfl : apply_range_filters Log.hasField (fun r => Log.getField r.1) []
      (apply_filters filters_both logJoin) =
        .ok (apply_filters filters_both logJoin))
    (rfl : apply_sort [] = .ok []) ⟨limit, offset⟩
  simp only [run_select, hsel]
  rw [show ((((apply_filters filters_both eventJoin db_dup).map fun r =>
      eventProjection r.1 r.2.2) ++
      ((apply_filters filters_both logJoin db_dup).map fun r =>
        logProjection r.1 r.2.2)).dedup) =
    [eventProjection sample_event sample_deployment,
      logProjection sample_log sample_deployment] from by decide]
  rw [sortRows_nil_keys]

/-- C8: the count query takes no pagination parameters — binding `limit`
and `offset` does not change its result, which is the total matching row
count before windowing — while the selection query applies the bound
`limit = size` and `offset` parameters, so the number of returned rows
never exceeds `size`. -/
theorem claim_C8 (filters : Option Filters) (pagination : Pagination)
    (sort : List (String × String)) (range_filters : List (String × RangeBound))
    (db : DB) (size offset size' offset' : Nat) :
    run_count filters range_filters db size offset =
      run_count filters range_filters db size' offset' ∧
    (∀ rows, run_select filters pagination sort range_filters db size offset =
        some rows →
      rows.length ≤ size) := by
  refine ⟨rfl, fun rows h => ?_⟩
  unfold run_select at h
  cases hb : build_select_query filters pagination sort range_filters with
  | error e =>
    rw [hb] at h
    exact absurd h (by simp)
  | ok sel =>
    rw [hb] at h
    obtain ⟨keys, rowsFn, hsel⟩ := build_select_query_ok_shape hb
    rw [hsel] at h
    obtain rfl : ((sortRows keys (rowsFn db)).drop offset).take size = rows :=
      Option.some.inj h
    rw [List.length_take]
    exact Nat.min_le_left _ _

theorem claim_C8_witness :
    run_count (some filters_both) [] db_dup 5 0 =
        run_count (some filters_both) [] db_dup 99 42 ∧
      [eventProjection sample_event sample_deployment].length ≤ 1 :=
  ⟨(claim_C8 (some filters_both) ⟨1, 0⟩ [] [] db_dup 5 0 99 42).1,
    (claim_C8 (some filters_both) ⟨1, 0⟩ [] [] db_dup 1 0 99 42).2
      [eventProjection sample_event sample_deployment]
      (by rw [run_select_db_dup 1 0]; rfl)⟩

/-- C1 (amended): when both types are requested, the selection query is the
SQL `UNION` — concatenation with duplicate rows removed — of the event
projection and the log projection, each independently filtered and
range-filtered before the union, and the count query is the sum of the two
independently-filtered counts; every event-side row is tagged
`cloudify_event` and every log-side row `cloudify_log` (so the two sides
are disjoint), and, absent pagination, the count equals the number of
selected rows whenever the combined projected rows are pairwise distinct
(SQL `UNION` collapses duplicate projected rows, so the count can exceed
the selected row count otherwise). -/
theorem claim_C1 (fs : Filters) (types : List String)
    (sort : List (String × String)) (keys : List (String × Bool))
    (rfs : List (String × RangeBound))
    (evQ : Query (Event × Execution × Deployment))
    (logQ : Query (Log × Execution × Deployment)) (p : Pagination) (db : DB)
    (hty : fs.type = some types)
    (hev : "cloudify_event" ∈ types) (hlog : "cloudify_log" ∈ types)
    (h2 : apply_range_filters Event.hasField (fun r => Event.getField r.1) rfs
      (apply_filters fs eventJoin) = .ok evQ)
    (h3 : apply_range_filters Log.hasField (fun r => Log.getField r.1) rfs
      (apply_filters fs logJoin) = .ok logQ)
    (hs : apply_sort sort = .ok keys) (limit offset : Nat) :
    run_select (some fs) p sort rfs db limit offset =
      some (((sortRows keys ((((evQ db).map fun r => eventProjection r.1 r.2.2) ++
        ((logQ db).map fun r => logProjection r.1 r.2.2)).dedup)).drop offset).take
          limit) ∧
    run_count (some fs) rfs db limit offset =
      some ((evQ db).length + (logQ db).length) ∧
    (∀ row ∈ (evQ db).map fun r => eventProjection r.1 r.2.2,
      row.type = .str "cloudify_event") ∧
    (∀ row ∈ (logQ db).map fun r => logProjection r.1 r.2.2,
      row.type = .str "cloudify_log") ∧
    ((((evQ db).map fun r => eventProjection r.1 r.2.2) ++
        ((logQ db).map fun r => logProjection r.1 r.2.2)).Nodup →
      (evQ db).length + (logQ db).length ≤ limit → offset = 0 →
      ∀ rows, run_select (some fs) p sort rfs db limit offset = some rows →
        rows.length = (evQ db).length + (logQ db).length) := by
  have hsel := build_select_query_both hty hev hlog h2 h3 hs p
  have hcnt := build_count_query_both hty hev hlog h2 h3
  have hrunsel : run_select (some fs) p sort rfs db limit offset =
      some (((sortRows keys ((((evQ db).map fun r => eventProjection r.1 r.2.2) ++
        ((logQ db).map fun r => logProjection r.1 r.2.2)).dedup)).drop offset).take
          limit) := by
    simp [run_select, hsel]
  refine ⟨hrunsel, by simp [run_count, hcnt], ?_, ?_, ?_⟩
  · intro row hrow
    obtain ⟨r, _, rfl⟩ := List.mem_map.mp hrow
    rfl
  · intro row hrow
    obtain ⟨r, _, rfl⟩ := List.mem_map.mp hrow
    rfl
  · intro hnodup hlim hoff rows hrows
    subst hoff
    rw [hrunsel] at hrows
    obtain rfl := Option.some.inj hrows
    rw [List.drop_zero, List.dedup_eq_self.mpr hnodup]
    have hperm := sortRows_perm keys
      (((evQ db).map fun r => eventProjection r.1 r.2.2) ++
        ((logQ db).map fun r => logProjection r.1 r.2.2))
    have hlen := hperm.length_eq
    rw [List.length_append, List.length_map, List.length_map] at hlen
    rw [List.length_take, hlen]
    omega

theorem claim_C1_witness :
    run_count (some filters_both) [] db_dup 100 0 =
      some ((apply_filters filters_both eventJoin db_dup).length +
        (apply_filters filters_both logJoin db_dup).length) :=
  (claim_C1 filters_both ["cloudify_event", "cloudify_log"] [] [] []
    (apply_filters filters_both eventJoin) (apply_filters filters_both logJoin)
    ⟨100, 0⟩ db_dup rfl (by decide) (by decide) rfl rfl rfl 100 0).2.1

/-- C1 counterexample to the claim as stated: on a database holding two
events with identical projected columns plus one log, with both types
requested, no range filters, no sort and a window covering everything, the
count query yields 3 while the selection query returns only 2 rows — SQL
`UNION` removed the duplicate event row — so the count does not equal the
number of selected rows even absent pagination. -/
theorem claim_C1_counterexample :
    run_count (some filters_both) [] db_dup 100 0 = some 3 ∧
      (run_select (some filters_both) ⟨100, 0⟩ [] [] db_dup 100 0).map
        List.length = some 2 := by
  constructor
  · decide
  · rw [run_select_db_dup 100 0]
    decide

/-- C3 (code bug): the renderer is `'{}Z'.format(value.isoformat()[:-3])`.
For a timestamp with a nonzero microsecond field the claim's example holds
(`2024-01-02T03:04:05.123456` renders as `2024-01-02T03:04:05.123Z`,
truncated), but for a whole-second timestamp Python's `isoformat` emits no
fractional part, so slicing off the last three characters removes the
seconds: `2024-01-02T03:04:05.000000` renders as `2024-01-02T03:04Z`
instead of a millisecond-precision string. -/
theorem claim_C3_bug_eval :
    (map_event_to_es none (eventProjection sample_event sample_deployment)).lookup
        "timestamp" = some (.str "2024-01-02T03:04:05.123Z") ∧
      (map_event_to_es none (eventProjection sample_event sample_deployment)).lookup
        "@timestamp" = some (.str "2024-01-02T03:04:05.123Z") ∧
      (map_event_to_es none (eventProjection
          ⟨dtWhole, "hello", .null, .null, .null, .null, 1⟩
          sample_deployment)).lookup "timestamp" =
        some (.str "2024-01-02T03:04Z") ∧
      (map_event_to_es none (eventProjection
          ⟨dtWhole, "hello", .null, .null, .null, .null, 1⟩
          sample_deployment)).lookup "@timestamp" =
        some (.str "2024-01-02T03:04Z") :=
  ⟨rfl, rfl, rfl, rfl⟩

/-- C4: for every row the mapped record duplicates the timestamp under
`@timestamp`, wraps the message as `{text: ...}`, regroups `deployment_id`,
`operation` and `node_id` into a nested `context` object keyed by their
original names (removing them from the top level), and applies the
type-specific shaping: an event-tagged row gains a null `arguments` key
inside the message structure and loses its top-level `logger` and `level`
keys, while a log-tagged row loses its top-level `event_type` key and keeps
`logger` and `level`. -/
theorem claim_C4 (r : Row) :
    (r.type = .str "cloudify_event" →
      (map_event_to_es none r).map Prod.fst =
        ["timestamp", "message", "message_code", "event_type", "type",
          "@timestamp", "context"] ∧
      (map_event_to_es none r).lookup "@timestamp" =
        (map_event_to_es none r).lookup "timestamp" ∧
      (map_event_to_es none r).lookup "message" =
        some (.obj [("text", r.message.toEs), ("arguments", .null)]) ∧
      (map_event_to_es none r).lookup "context" =
        some (.obj [("deployment_id", r.deployment_id.toEs),
          ("operation", r.operation.toEs), ("node_id", r.node_id.toEs)])) ∧
    (r.type = .str "cloudify_log" →
      (map_event_to_es none r).map Prod.fst =
        ["timestamp", "message", "message_code", "logger", "level", "type",
          "@timestamp", "context"] ∧
      (map_event_to_es none r).lookup "@timestamp" =
        (map_event_to_es none r).lookup "timestamp" ∧
      (map_event_to_es none r).lookup "message" =
        some (.obj [("text", r.message.toEs)]) ∧
      (map_event_to_es none r).lookup "context" =
        some (.obj [("deployment_id", r.deployment_id.toEs),
          ("operation", r.operation.toEs), ("node_id", r.node_id.toEs)])) := by
  obtain ⟨ts, dpl, m, mc, et, op, nd, lg, lv, ty⟩ := r
  constructor
  · intro h
    replace h : ty = Value.str "cloudify_event" := h
    subst h
    rw [map_event_to_es_event_row]
    exact ⟨rfl, rfl, rfl, rfl⟩
  · intro h
    replace h : ty = Value.str "cloudify_log" := h
    subst h
    rw [map_event_to_es_log_row]
    exact ⟨rfl, rfl, rfl, rfl⟩

theorem claim_C4_witness :
    (map_event_to_es none (eventProjection sample_event sample_deployment)).lookup
        "message" = some (.obj [("text", .str "hello"), ("arguments", .null)]) ∧
      (map_event_to_es none (logProjection sample_log sample_deployment)).map
          Prod.fst =
        ["timestamp", "message", "message_code", "logger", "level", "type",
          "@timestamp", "context"] :=
  ⟨((claim_C4 (eventProjection sample_event sample_deployment)).1 rfl).2.2.1,
    ((claim_C4 (logProjection sample_log sample_deployment)).2 rfl).1⟩

/-- C9: the mapper is a pure function of its row; when a field-projection
list is supplied the final record retains exactly the keys present both in
the record and in the list (in particular projecting on
`["message", "@timestamp"]` leaves exactly those two keys), and a null
projection retains every field of the record. -/
theorem claim_C9 (r : Row) :
    (∀ incl : List String,
      (map_event_to_es (some incl) r).map Prod.fst =
        ((map_event_to_es none r).map Prod.fst).filter fun k =>
          decide (k ∈ incl)) ∧
    (map_event_to_es (some ["message", "@timestamp"]) r).map Prod.fst =
      ["message", "@timestamp"] := by
  have hfilter : ∀ incl : List String, map_event_to_es (some incl) r =
      (map_event_to_es none r).filter fun p => decide (p.1 ∈ incl) :=
    fun incl => rfl
  constructor
  · intro incl
    rw [hfilter]
    exact map_fst_filter_key (map_event_to_es none r) fun k => decide (k ∈ incl)
  · rw [hfilter,
      map_fst_filter_key (map_event_to_es none r) fun k =>
        decide (k ∈ ["message", "@timestamp"])]
    rcases map_event_to_es_none_keys r with h | h | h <;> rw [h] <;> rfl

end ManagerRest
